import Mathlib

/-!
Shallow embedding of the ETA projection and delay-classification core of the
Smart Delivery ETA Checker (src/eta_engine.py, configuration in src/config.py).

Modelling conventions:
* Python floats are modelled as rationals; timestamps are rationals counting
  minutes since an arbitrary epoch.  A datetime plus a timedelta of m minutes
  is addition of rationals; total_seconds()/60 of a difference is subtraction.
* A timestamp string is modelled by its parse outcome: datetime.fromisoformat
  either returns a datetime or raises ValueError, so a TimeStr is either
  valid (carrying the parsed instant) or invalid, and fromisoformat returns
  Except, the error standing for the raised exception.  Exception propagation
  through the callers is the Except error channel.
* geopy geodesic distance is a black-box distance oracle (spec section 4.1),
  passed as an explicit function argument dist.
* random.uniform in generate_traffic_multiplier is an external randomness
  source; the sampled stream is passed as an explicit argument traffic giving
  the multiplier drawn for each leg, one per consecutive leg (spec section 9
  directs treating the sampler as a pluggable strategy).
* Python round(x, n) is decimal round-half-to-even, modelled by pyRound.
* list.sort(key=...) is a stable sort by the key; a stable sort is
  extensionally unique, so we use the structurally recursive stable
  List.insertionSort of Mathlib, matched to the same key order.
* pandas DataFrames are lists of rows; generate_alerts is given both as the
  pure row-level function and, for the aliasing behaviour of .copy() and
  in-place column assignment, as an explicit-store version in which frames
  live in a store addressed by index, .copy() allocates a fresh frame and
  column assignment overwrites the frame in place at its address.
-/

/-- Outcome of parsing one ISO-8601 timestamp string: either the instant it
denotes, in minutes, or an unparsable string. -/
inductive TimeStr where
  | valid (minutes : ℚ)
  | invalid
deriving DecidableEq

/-- Models datetime.fromisoformat(s.replace(Z, +00:00)): returns the parsed
instant or raises ValueError on a malformed string. -/
def fromisoformat : TimeStr → Except String ℚ
  | .valid t => .ok t
  | .invalid => .error "Invalid isoformat string"

/-- True when the timestamp string parses. -/
def TimeStr.isValid : TimeStr → Bool
  | .valid _ => true
  | .invalid => false

instance {ε α : Type} [DecidableEq ε] [DecidableEq α] : DecidableEq (Except ε α)
  | .ok a, .ok b =>
    if h : a = b then .isTrue (by rw [h]) else .isFalse (by simp [h])
  | .ok _, .error _ => .isFalse (by simp)
  | .error _, .ok _ => .isFalse (by simp)
  | .error e, .error f =>
    if h : e = f then .isTrue (by rw [h]) else .isFalse (by simp [h])

/-- Configuration parameters read by the engine (src/config.py, ETAConfig);
only the fields the core reads are carried. -/
structure ETAConfig where
  DRIVER_SPEEDS : List (String × ℚ)
  STOP_SERVICE_TIME : ℚ
  DELAY_THRESHOLD : ℚ

/-- Default configuration instance (src/config.py, eta_config). -/
def eta_config : ETAConfig :=
  { DRIVER_SPEEDS := [("driver_001", 45), ("driver_002", 40), ("driver_003", 50)]
    STOP_SERVICE_TIME := 5
    DELAY_THRESHOLD := 15 }

/-- One delivery stop record, with the fields read by the engine. -/
structure Stop where
  driver_id : String
  stop_id : String
  sequence : ℤ
  latitude : ℚ
  longitude : ℚ
  planned_eta : TimeStr
  customer_name : String
deriving DecidableEq

/-- One current-location observation for a driver. -/
structure DriverPosition where
  driver_id : String
  latitude : ℚ
  longitude : ℚ
  timestamp : TimeStr
deriving DecidableEq

/-- One emitted ETA projection record (the dict built at
src/eta_engine.py lines 85-101). calculated_eta stores the projected arrival
instant (the isoformat string determines it exactly). -/
structure ETAResult where
  driver_id : String
  stop_id : String
  sequence : ℤ
  customer_name : String
  distance_km : ℚ
  travel_time_min : ℚ
  service_time_min : ℚ
  planned_eta : TimeStr
  calculated_eta : ℚ
  delay_minutes : ℚ
  avg_speed_kmh : ℚ
  traffic_multiplier : ℚ
  is_delayed : Bool
  latitude : ℚ
  longitude : ℚ
deriving DecidableEq

/-- Round to the nearest integer, ties to the even integer, as Python round
does on exact values. -/
def roundHalfEven (q : ℚ) : ℤ :=
  if q - (⌊q⌋ : ℚ) < 1/2 then ⌊q⌋
  else if 1/2 < q - (⌊q⌋ : ℚ) then ⌊q⌋ + 1
  else if ⌊q⌋ % 2 = 0 then ⌊q⌋ else ⌊q⌋ + 1

/-- Python round(q, ndigits) on exact values. -/
def pyRound (ndigits : ℕ) (q : ℚ) : ℚ :=
  (roundHalfEven (q * 10 ^ ndigits) : ℚ) / 10 ^ ndigits

/-- ETAEngine.calculate_travel_time (src/eta_engine.py lines 26-34): travel
time in minutes, zero when the average speed is non-positive. -/
def calculate_travel_time (distance_km avg_speed_kmh traffic_multiplier : ℚ) : ℚ :=
  if avg_speed_kmh ≤ 0 then 0
  else distance_km / avg_speed_kmh * traffic_multiplier * 60

/-- Key order used by driver_stops.sort(key=lambda x: x[sequence-field]). -/
def stopLe (s t : Stop) : Prop := s.sequence ≤ t.sequence

instance : DecidableRel stopLe :=
  fun s t => inferInstanceAs (Decidable (s.sequence ≤ t.sequence))

instance : IsTotal Stop stopLe := ⟨fun s t => Int.le_total s.sequence t.sequence⟩

instance : IsTrans Stop stopLe := ⟨fun _ _ _ h h' => le_trans h h'⟩

/-- Body of the per-stop loop of ETAEngine.calculate_eta_for_driver
(src/eta_engine.py lines 56-109): cursor position and cursor time are carried
through the fold, k indexes the traffic sample drawn for each leg, and a
ValueError from parsing a planned_eta propagates. -/
def etaLoop (cfg : ETAConfig) (dist : ℚ × ℚ → ℚ × ℚ → ℚ) (avg_speed : ℚ)
    (traffic : ℕ → ℚ) (did : String) :
    ℚ × ℚ → ℚ → ℕ → List Stop → Except String (List ETAResult)
  | _, _, _, [] => .ok []
  | current_position, cumulative_time, k, stop :: rest =>
    match fromisoformat stop.planned_eta with
    | .error e => .error e
    | .ok planned_eta_t =>
      let stop_position : ℚ × ℚ := (stop.latitude, stop.longitude)
      let distance_km := dist current_position stop_position
      let traffic_multiplier := traffic k
      let travel_time_min := calculate_travel_time distance_km avg_speed traffic_multiplier
      let arrival_time := cumulative_time + travel_time_min
      let delay_minutes := arrival_time - planned_eta_t
      let eta_result : ETAResult :=
        { driver_id := did
          stop_id := stop.stop_id
          sequence := stop.sequence
          customer_name := stop.customer_name
          distance_km := pyRound 2 distance_km
          travel_time_min := pyRound 1 travel_time_min
          service_time_min := cfg.STOP_SERVICE_TIME
          planned_eta := stop.planned_eta
          calculated_eta := arrival_time
          delay_minutes := pyRound 1 delay_minutes
          avg_speed_kmh := avg_speed
          traffic_multiplier := pyRound 2 traffic_multiplier
          is_delayed := decide (delay_minutes > cfg.DELAY_THRESHOLD)
          latitude := stop.latitude
          longitude := stop.longitude }
      match etaLoop cfg dist avg_speed traffic did stop_position
          (arrival_time + cfg.STOP_SERVICE_TIME) (k + 1) rest with
      | .error e => .error e
      | .ok rs => .ok (eta_result :: rs)

/-- ETAEngine.calculate_eta_for_driver (src/eta_engine.py lines 41-109). -/
def calculate_eta_for_driver (cfg : ETAConfig) (dist : ℚ × ℚ → ℚ × ℚ → ℚ)
    (traffic : ℕ → ℚ) (driver_position : DriverPosition) (stops : List Stop) :
    Except String (List ETAResult) :=
  match fromisoformat driver_position.timestamp with
  | .error e => .error e
  | .ok current_time =>
    let avg_speed := (cfg.DRIVER_SPEEDS.lookup driver_position.driver_id).getD 45
    let driver_stops :=
      (stops.filter (fun s => s.driver_id == driver_position.driver_id)).insertionSort stopLe
    etaLoop cfg dist avg_speed traffic driver_position.driver_id
      (driver_position.latitude, driver_position.longitude) current_time 0 driver_stops

/-- Body of the loop of ETAEngine.calculate_all_etas (src/eta_engine.py
lines 120-122): one projection call per position record, results extended in
order; an exception raised for one driver propagates out of the loop. -/
def allEtasLoop (cfg : ETAConfig) (dist : ℚ × ℚ → ℚ × ℚ → ℚ)
    (traffic : ℕ → ℕ → ℚ) (stops : List Stop) :
    ℕ → List DriverPosition → Except String (List ETAResult)
  | _, [] => .ok []
  | i, position :: rest =>
    match calculate_eta_for_driver cfg dist (traffic i) position stops with
    | .error e => .error e
    | .ok driver_etas =>
      match allEtasLoop cfg dist traffic stops (i + 1) rest with
      | .error e => .error e
      | .ok rs => .ok (driver_etas ++ rs)

/-- ETAEngine.calculate_all_etas (src/eta_engine.py lines 111-124); traffic i
is the sample stream consumed by the projection for the i-th position. -/
def calculate_all_etas (cfg : ETAConfig) (dist : ℚ × ℚ → ℚ × ℚ → ℚ)
    (traffic : ℕ → ℕ → ℚ) (positions : List DriverPosition) (stops : List Stop) :
    Except String (List ETAResult) :=
  allEtasLoop cfg dist traffic stops 0 positions

/-- Alert severity bucket. -/
inductive Severity where
  | HIGH
  | MEDIUM
  | LOW
deriving DecidableEq

/-- Severity lambda of ETAEngine.generate_alerts (src/eta_engine.py
line 137). -/
def severityOf (delay_minutes : ℚ) : Severity :=
  if delay_minutes > 30 then .HIGH
  else if delay_minutes > 20 then .MEDIUM
  else .LOW

/-- One DataFrame row flowing through generate_alerts: an ETAResult plus the
alert columns, absent until assigned. -/
structure Row where
  proj : ETAResult
  alert_timestamp : Option ℚ
  alert_severity : Option Severity
deriving DecidableEq

/-- Key order of sort_values(delay_minutes-column, ascending=False). -/
def alertGe (a b : Row) : Prop := b.proj.delay_minutes ≤ a.proj.delay_minutes

instance : DecidableRel alertGe :=
  fun a b => inferInstanceAs (Decidable (b.proj.delay_minutes ≤ a.proj.delay_minutes))

instance : IsTotal Row alertGe := ⟨fun a b => le_total b.proj.delay_minutes a.proj.delay_minutes⟩

instance : IsTrans Row alertGe := ⟨fun _ _ _ h h' => le_trans h' h⟩

/-- ETAEngine.generate_alerts (src/eta_engine.py lines 126-143) at row level:
filter to the delayed rows, return an empty frame when none, else assign the
two alert columns and sort by delay descending. -/
def generate_alerts (now : ℚ) (eta_rows : List Row) : List Row :=
  let delayed_stops := eta_rows.filter (fun r => r.proj.is_delayed)
  if delayed_stops.length = 0 then []
  else
    let with_ts := delayed_stops.map (fun r => { r with alert_timestamp := some now })
    let with_sev := with_ts.map
      (fun r => { r with alert_severity := some (severityOf r.proj.delay_minutes) })
    with_sev.insertionSort alertGe

/-- ETAEngine.generate_alerts again, with the frame store explicit so that the
aliasing discipline of the source is visible: the input frame lives at address
eta_ref; the boolean-mask selection followed by .copy() allocates a fresh
frame; each column assignment overwrites that fresh frame in place at its
address; sort_values (inplace left at its default) allocates the returned
frame.  The result is the final store and the address of the returned
frame. -/
def generate_alerts_st (now : ℚ) (store : List (List Row)) (eta_ref : ℕ) :
    List (List Row) × ℕ :=
  let eta_rows := store.getD eta_ref []
  let delayed_stops := eta_rows.filter (fun r => r.proj.is_delayed)
  let store1 := store ++ [delayed_stops]
  let dref := store.length
  if delayed_stops.length = 0 then
    (store1 ++ [[]], store1.length)
  else
    let store2 := store1.set dref
      ((store1.getD dref []).map (fun r => { r with alert_timestamp := some now }))
    let store3 := store2.set dref
      ((store2.getD dref []).map
        (fun r => { r with alert_severity := some (severityOf r.proj.delay_minutes) }))
    (store3 ++ [(store3.getD dref []).insertionSort alertGe], store3.length)

/-!
Concrete inputs used by the witness and counterexample theorems below.  The
distance oracle demoDist is one admissible instantiation of the black-box
geodesic oracle of spec section 4.1: non-negative, symmetric, zero on equal
points (as the geodesic distance between identical coordinates is), six
kilometres between any two distinct points used here.
-/

/-- Concrete distance oracle for witnesses. -/
def demoDist (p q : ℚ × ℚ) : ℚ := if p = q then 0 else 6

/-- Position observation for driver_001 at minute 0. -/
def dp1 : DriverPosition :=
  { driver_id := "driver_001", latitude := 25, longitude := 55, timestamp := .valid 0 }

/-- First stop of driver_001, planned for minute 30. -/
def st1 : Stop :=
  { driver_id := "driver_001", stop_id := "s1", sequence := 1, latitude := 26,
    longitude := 55, planned_eta := .valid 30, customer_name := "Alice" }

/-- Second stop of driver_001, planned for minute 10. -/
def st2 : Stop :=
  { driver_id := "driver_001", stop_id := "s2", sequence := 2, latitude := 27,
    longitude := 55, planned_eta := .valid 10, customer_name := "Bob" }

/-- A stop belonging to a different driver. -/
def stOther : Stop :=
  { driver_id := "driver_002", stop_id := "o1", sequence := 1, latitude := 21,
    longitude := 51, planned_eta := .valid 20, customer_name := "Carol" }

/-- Duplicate-sequence stop A of driver_001. -/
def dupA : Stop :=
  { driver_id := "driver_001", stop_id := "A", sequence := 1, latitude := 26,
    longitude := 55, planned_eta := .valid 30, customer_name := "Alice" }

/-- Duplicate-sequence stop B of driver_001: same sequence number as dupA. -/
def dupB : Stop :=
  { driver_id := "driver_001", stop_id := "B", sequence := 1, latitude := 27,
    longitude := 55, planned_eta := .valid 40, customer_name := "Bob" }

/-- Position observation whose timestamp string does not parse. -/
def posBad : DriverPosition :=
  { driver_id := "driver_002", latitude := 20, longitude := 50, timestamp := .invalid }

/-- Driver position already at the stop coordinates, observed at minute 10. -/
def dpC8 : DriverPosition :=
  { driver_id := "driver_001", latitude := 25, longitude := 55, timestamp := .valid 10 }

/-- Stop at the driver's own coordinates, planned 0.04 minutes before the
observation instant. -/
def stC8 : Stop :=
  { driver_id := "driver_001", stop_id := "s1", sequence := 1, latitude := 25,
    longitude := 55, planned_eta := .valid (249/25), customer_name := "Alice" }

/-- Projection record with a given delay and delayed flag, for classifier
inputs. -/
def mkProj (delay : ℚ) (flag : Bool) : ETAResult :=
  { driver_id := "driver_001", stop_id := "s", sequence := 1, customer_name := "c",
    distance_km := 1, travel_time_min := 1, service_time_min := 5,
    planned_eta := .valid 0, calculated_eta := delay, delay_minutes := delay,
    avg_speed_kmh := 45, traffic_multiplier := 1, is_delayed := flag,
    latitude := 0, longitude := 0 }

/-- Classifier input row with a given delay and delayed flag. -/
def mkRow (delay : ℚ) (flag : Bool) : Row := ⟨mkProj delay flag, none, none⟩

/-- Classifier input with delays 5.2, 40.1, 22.0 (as in spec section 8) plus
one non-delayed row. -/
def demoRows : List Row :=
  [mkRow (26/5) true, mkRow (401/10) true, mkRow 22 true, mkRow 50 false]

/-- Head of the classifier output on demoRows (the worst delay, 40.1). -/
def demoAlertRow : Row := (generate_alerts 0 demoRows).getD 0 (mkRow 0 false)

/-- Projection list of the two-stop demo run for dp1. -/
def demoRs : List ETAResult :=
  (calculate_eta_for_driver eta_config demoDist (fun _ => 1) dp1 [st2, st1]).toOption.getD []

/-- First record of the demo run. -/
def demoR0 : ETAResult := demoRs.getD 0 (mkProj 0 false)

/-- Second record of the demo run. -/
def demoR1 : ETAResult := demoRs.getD 1 (mkProj 0 false)

/-!
Helper lemmas.
-/

lemma roundHalfEven_pos {q : ℚ} (h : 0 < roundHalfEven q) : 0 < q := by
  unfold roundHalfEven at h
  have hf : ((⌊q⌋ : ℚ)) ≤ q := Int.floor_le q
  split_ifs at h with h1 h2 h3
  · have h1q : (1 : ℚ) ≤ (⌊q⌋ : ℚ) := by exact_mod_cast h
    linarith
  · have h0q : (0 : ℚ) ≤ (⌊q⌋ : ℚ) := by exact_mod_cast (by omega : (0 : ℤ) ≤ ⌊q⌋)
    have h1' : (1 : ℚ) / 2 ≤ q - (⌊q⌋ : ℚ) := not_lt.mp h1
    linarith
  · have h1q : (1 : ℚ) ≤ (⌊q⌋ : ℚ) := by exact_mod_cast h
    linarith
  · have h0q : (0 : ℚ) ≤ (⌊q⌋ : ℚ) := by exact_mod_cast (by omega : (0 : ℤ) ≤ ⌊q⌋)
    have h1' : (1 : ℚ) / 2 ≤ q - (⌊q⌋ : ℚ) := not_lt.mp h1
    linarith

lemma roundHalfEven_neg {q : ℚ} (h : roundHalfEven q < 0) : q < 0 := by
  unfold roundHalfEven at h
  have hf : q < (⌊q⌋ : ℚ) + 1 := Int.lt_floor_add_one q
  split_ifs at h with h1 h2 h3
  · have h1q : (⌊q⌋ : ℚ) ≤ -1 := by exact_mod_cast (by omega : ⌊q⌋ ≤ -1)
    linarith
  · have h1q : (⌊q⌋ : ℚ) ≤ -2 := by exact_mod_cast (by omega : ⌊q⌋ ≤ -2)
    linarith
  · have h1q : (⌊q⌋ : ℚ) ≤ -1 := by exact_mod_cast (by omega : ⌊q⌋ ≤ -1)
    linarith
  · have h1q : (⌊q⌋ : ℚ) ≤ -2 := by exact_mod_cast (by omega : ⌊q⌋ ≤ -2)
    linarith

lemma pyRound_pos {n : ℕ} {q : ℚ} (h : 0 < pyRound n q) : 0 < q := by
  unfold pyRound at h
  have hc : (0 : ℚ) < 10 ^ n := by positivity
  have hz : (0 : ℚ) < (roundHalfEven (q * 10 ^ n) : ℚ) := by
    rcases div_pos_iff.mp h with ⟨ha, _⟩ | ⟨_, hb⟩
    · exact ha
    · linarith
  have hzi : 0 < roundHalfEven (q * 10 ^ n) := by exact_mod_cast hz
  have hq : 0 < q * 10 ^ n := roundHalfEven_pos hzi
  by_contra hle
  have : q * 10 ^ n ≤ 0 := mul_nonpos_of_nonpos_of_nonneg (not_lt.mp hle) (le_of_lt hc)
  linarith

lemma pyRound_neg {n : ℕ} {q : ℚ} (h : pyRound n q < 0) : q < 0 := by
  unfold pyRound at h
  have hc : (0 : ℚ) < 10 ^ n := by positivity
  have hz : (roundHalfEven (q * 10 ^ n) : ℚ) < 0 := by
    rcases div_neg_iff.mp h with ⟨_, hb⟩ | ⟨ha, _⟩
    · linarith
    · exact ha
  have hzi : roundHalfEven (q * 10 ^ n) < 0 := by exact_mod_cast hz
  have hq : q * 10 ^ n < 0 := roundHalfEven_neg hzi
  by_contra hle
  have : 0 ≤ q * 10 ^ n := mul_nonneg (not_lt.mp hle) (le_of_lt hc)
  linarith

/-!
Claim theorems.
-/

/-- C6: for every distance and traffic multiplier, calculate_travel_time
returns 0 when the average speed is non-positive (guarded degenerate case),
and otherwise returns (distance / speed) times multiplier times 60. -/
theorem C6_degenerate_speed_guard (distance_km avg_speed_kmh traffic_multiplier : ℚ) :
    (avg_speed_kmh ≤ 0 →
      calculate_travel_time distance_km avg_speed_kmh traffic_multiplier = 0) ∧
    (0 < avg_speed_kmh →
      calculate_travel_time distance_km avg_speed_kmh traffic_multiplier =
        distance_km / avg_speed_kmh * traffic_multiplier * 60) := by
  constructor
  · intro h
    simp [calculate_travel_time, if_pos h]
  · intro h
    simp [calculate_travel_time, if_neg (not_le.mpr h)]

/-- Witness for C6 at speed 0 and at speed 45. -/
theorem C6_witness :
    calculate_travel_time 6 0 1 = 0 ∧ calculate_travel_time 6 45 1 = 8 := by
  constructor
  · exact (C6_degenerate_speed_guard 6 0 1).1 le_rfl
  · rw [(C6_degenerate_speed_guard 6 45 1).2 (by norm_num)]
    norm_num

/-- C9: the projection for a driver depends only on that driver's position,
the sub-collection of stops carrying that driver's id, the configuration, and
the traffic samples for that driver's legs; stops of other drivers, present or
absent, never influence the result. -/
theorem C9_driver_noninterference (cfg : ETAConfig) (dist : ℚ × ℚ → ℚ × ℚ → ℚ)
    (traffic : ℕ → ℚ) (driver_position : DriverPosition) (stops1 stops2 : List Stop)
    (h : stops1.filter (fun s => s.driver_id == driver_position.driver_id)
       = stops2.filter (fun s => s.driver_id == driver_position.driver_id)) :
    calculate_eta_for_driver cfg dist traffic driver_position stops1
      = calculate_eta_for_driver cfg dist traffic driver_position stops2 := by
  unfold calculate_eta_for_driver
  rw [h]

/-- Witness for C9: adding a stop of driver_002 does not change driver_001's
projections. -/
theorem C9_witness :
    calculate_eta_for_driver eta_config demoDist (fun _ => 1) dp1 [stOther, st2, st1]
      = calculate_eta_for_driver eta_config demoDist (fun _ => 1) dp1 [st2, st1] :=
  C9_driver_noninterference eta_config demoDist (fun _ => 1) dp1 [stOther, st2, st1]
    [st2, st1] (by with_unfolding_all decide)

/-- Records emitted by the per-stop loop carry the stop identifier and
sequence of the processed stops, in processing order. -/
lemma etaLoop_ok_maps (cfg : ETAConfig) (dist : ℚ × ℚ → ℚ × ℚ → ℚ) (sp : ℚ)
    (tr : ℕ → ℚ) (did : String) :
    ∀ (ss : List Stop) (pos : ℚ × ℚ) (t : ℚ) (k : ℕ) (rs : List ETAResult),
    etaLoop cfg dist sp tr did pos t k ss = .ok rs →
    rs.map (fun r => r.stop_id) = ss.map (fun s => s.stop_id) ∧
    rs.map (fun r => r.sequence) = ss.map (fun s => s.sequence) := by
  intro ss
  induction ss with
  | nil =>
    intro pos t k rs h
    simp only [etaLoop] at h
    cases h
    simp
  | cons stop rest ih =>
    intro pos t k rs h
    simp only [etaLoop] at h
    split at h
    · cases h
    · split at h
      · cases h
      · rename_i p hp rs' hrec
        cases h
        obtain ⟨h1, h2⟩ := ih _ _ _ _ hrec
        simp [h1, h2]

/-- When every planned time in the stop list parses, the per-stop loop
succeeds. -/
lemma etaLoop_ok_of_valid (cfg : ETAConfig) (dist : ℚ × ℚ → ℚ × ℚ → ℚ) (sp : ℚ)
    (tr : ℕ → ℚ) (did : String) :
    ∀ (ss : List Stop) (pos : ℚ × ℚ) (t : ℚ) (k : ℕ),
    (∀ s ∈ ss, s.planned_eta.isValid = true) →
    (etaLoop cfg dist sp tr did pos t k ss).isOk = true := by
  intro ss
  induction ss with
  | nil =>
    intro pos t k _
    simp [etaLoop, Except.isOk, Except.toBool]
  | cons stop rest ih =>
    intro pos t k hv
    have hs : stop.planned_eta.isValid = true := hv stop (List.mem_cons_self stop rest)
    cases hts : stop.planned_eta with
    | invalid => rw [hts] at hs; cases hs
    | valid m =>
      have hrest : ∀ s ∈ rest, s.planned_eta.isValid = true :=
        fun s hsm => hv s (List.mem_cons_of_mem stop hsm)
      have hrec := ih (stop.latitude, stop.longitude)
        (t + calculate_travel_time (dist pos (stop.latitude, stop.longitude)) sp (tr k)
          + cfg.STOP_SERVICE_TIME) (k + 1) hrest
      simp only [etaLoop, hts, fromisoformat]
      split
      · rename_i e hrec'
        rw [hrec'] at hrec
        simp [Except.isOk, Except.toBool] at hrec
      · simp [Except.isOk, Except.toBool]

/-- Every record emitted by the per-stop loop stores, as delay_minutes, the
difference between its projected arrival and its parsed planned time, rounded
to one decimal. -/
lemma etaLoop_delay (cfg : ETAConfig) (dist : ℚ × ℚ → ℚ × ℚ → ℚ) (sp : ℚ)
    (tr : ℕ → ℚ) (did : String) :
    ∀ (ss : List Stop) (pos : ℚ × ℚ) (t : ℚ) (k : ℕ) (rs : List ETAResult),
    etaLoop cfg dist sp tr did pos t k ss = .ok rs →
    ∀ r ∈ rs, ∀ p, fromisoformat r.planned_eta = .ok p →
      r.delay_minutes = pyRound 1 (r.calculated_eta - p) := by
  intro ss
  induction ss with
  | nil =>
    intro pos t k rs h
    simp only [etaLoop] at h
    cases h
    simp
  | cons stop rest ih =>
    intro pos t k rs h
    simp only [etaLoop] at h
    split at h
    · cases h
    · split at h
      · cases h
      · rename_i hpeq scr rs' hrec
        cases h
        intro r hr q hq
        rcases List.mem_cons.mp hr with hr0 | hrs
        · subst hr0
          simp only at hq
          rw [hpeq] at hq
          cases hq
          rfl
        · exact ih _ _ _ _ hrec r hrs q hq

/-- Chaining invariant of the per-stop loop: the first emitted record is
projected from the incoming cursor, and each later record is the previous
record's arrival plus service time plus the travel time of its own leg. -/
lemma etaLoop_chain (cfg : ETAConfig) (dist : ℚ × ℚ → ℚ × ℚ → ℚ) (sp : ℚ)
    (tr : ℕ → ℚ) (did : String) :
    ∀ (ss : List Stop) (pos : ℚ × ℚ) (t : ℚ) (k : ℕ) (rs : List ETAResult),
    etaLoop cfg dist sp tr did pos t k ss = .ok rs →
    (∀ a, rs[0]? = some a →
      a.calculated_eta
        = t + calculate_travel_time (dist pos (a.latitude, a.longitude)) sp (tr k)) ∧
    (∀ i a b, rs[i]? = some a → rs[i + 1]? = some b →
      b.calculated_eta = a.calculated_eta + cfg.STOP_SERVICE_TIME +
        calculate_travel_time (dist (a.latitude, a.longitude) (b.latitude, b.longitude))
          sp (tr (k + i + 1))) := by
  intro ss
  induction ss with
  | nil =>
    intro pos t k rs h
    simp only [etaLoop] at h
    cases h
    simp
  | cons stop rest ih =>
    intro pos t k rs h
    simp only [etaLoop] at h
    split at h
    · cases h
    · split at h
      · cases h
      · rename_i p hp rs' hrec
        cases h
        constructor
        · intro a ha
          rw [List.getElem?_cons_zero] at ha
          cases ha
          rfl
        · intro i a b ha hb
          cases i with
          | zero =>
            rw [List.getElem?_cons_zero] at ha
            cases ha
            rw [List.getElem?_cons_succ] at hb
            exact (ih _ _ _ _ hrec).1 b hb
          | succ j =>
            rw [List.getElem?_cons_succ] at ha
            rw [List.getElem?_cons_succ] at hb
            rw [show k + (j + 1) + 1 = k + 1 + j + 1 from by omega]
            exact (ih _ _ _ _ hrec).2 j a b ha hb

/-- C1: projections chain sequentially.  The first emitted record's projected
arrival is computed from the driver's live position and parsed observation
timestamp; every later record's projected arrival equals the previous
record's projected arrival plus the configured service time plus the travel
time of its own leg (from the previous stop's position, at the driver's
speed, with that leg's traffic sample) — so the cursor after each stop is
that stop's position and its arrival plus service time, service time being
added after every stop whatever its delay status. -/
theorem C1_sequential_chaining (cfg : ETAConfig) (dist : ℚ × ℚ → ℚ × ℚ → ℚ)
    (traffic : ℕ → ℚ) (driver_position : DriverPosition) (stops : List Stop)
    (current_time : ℚ) (rs : List ETAResult)
    (ht : fromisoformat driver_position.timestamp = .ok current_time)
    (h : calculate_eta_for_driver cfg dist traffic driver_position stops = .ok rs) :
    (∀ a, rs[0]? = some a →
      a.calculated_eta = current_time +
        calculate_travel_time
          (dist (driver_position.latitude, driver_position.longitude)
            (a.latitude, a.longitude))
          ((cfg.DRIVER_SPEEDS.lookup driver_position.driver_id).getD 45) (traffic 0)) ∧
    (∀ i a b, rs[i]? = some a → rs[i + 1]? = some b →
      b.calculated_eta = a.calculated_eta + cfg.STOP_SERVICE_TIME +
        calculate_travel_time (dist (a.latitude, a.longitude) (b.latitude, b.longitude))
          ((cfg.DRIVER_SPEEDS.lookup driver_position.driver_id).getD 45)
          (traffic (i + 1))) := by
  simp only [calculate_eta_for_driver, ht] at h
  obtain ⟨h1, h2⟩ := etaLoop_chain cfg dist
    ((cfg.DRIVER_SPEEDS.lookup driver_position.driver_id).getD 45) traffic
    driver_position.driver_id _ _ _ _ _ h
  refine ⟨h1, ?_⟩
  intro i a b ha hb
  have hc := h2 i a b ha hb
  rwa [show 0 + i + 1 = i + 1 from by omega] at hc

/-- Witness for C1 on the two-stop demo run: the second record's arrival is
the first record's arrival plus service time plus the second leg's travel
time. -/
theorem C1_witness :
    demoR1.calculated_eta = demoR0.calculated_eta + eta_config.STOP_SERVICE_TIME +
      calculate_travel_time
        (demoDist (demoR0.latitude, demoR0.longitude) (demoR1.latitude, demoR1.longitude))
        ((eta_config.DRIVER_SPEEDS.lookup dp1.driver_id).getD 45) 1 :=
  (C1_sequential_chaining eta_config demoDist (fun _ => 1) dp1 [st2, st1] 0 demoRs
      (by with_unfolding_all decide) (by with_unfolding_all decide)).2 0 demoR0 demoR1
    (by with_unfolding_all decide) (by with_unfolding_all decide)

/-- C7: the projector emits exactly one record per stop of the driver (same
count as the driver's stops), the records correspond one-to-one, in order, to
the driver's stops sorted by sequence, and the emitted sequence numbers are
in ascending order. -/
theorem C7_completeness_and_order (cfg : ETAConfig) (dist : ℚ × ℚ → ℚ × ℚ → ℚ)
    (traffic : ℕ → ℚ) (driver_position : DriverPosition) (stops : List Stop)
    (rs : List ETAResult)
    (h : calculate_eta_for_driver cfg dist traffic driver_position stops = .ok rs) :
    rs.length = (stops.filter (fun s => s.driver_id == driver_position.driver_id)).length ∧
    rs.map (fun r => r.stop_id) =
      ((stops.filter (fun s => s.driver_id == driver_position.driver_id)).insertionSort
        stopLe).map (fun s => s.stop_id) ∧
    (rs.map (fun r => r.sequence)).Sorted (· ≤ ·) := by
  cases ht : fromisoformat driver_position.timestamp with
  | error e =>
    simp only [calculate_eta_for_driver, ht] at h
    cases h
  | ok t0 =>
    simp only [calculate_eta_for_driver, ht] at h
    obtain ⟨hID, hSeq⟩ := etaLoop_ok_maps cfg dist
      ((cfg.DRIVER_SPEEDS.lookup driver_position.driver_id).getD 45) traffic
      driver_position.driver_id _ _ _ _ _ h
    refine ⟨?_, hID, ?_⟩
    · have hl := congrArg List.length hID
      simpa [List.length_insertionSort] using hl
    · rw [hSeq]
      have hsorted : List.Sorted stopLe
          ((stops.filter (fun s => s.driver_id == driver_position.driver_id)).insertionSort
            stopLe) :=
        List.sorted_insertionSort stopLe _
      exact List.pairwise_map.mpr hsorted

/-- Witness for C7 on the two-stop demo run. -/
theorem C7_witness :
    demoRs.length = ([st2, st1].filter (fun s => s.driver_id == dp1.driver_id)).length ∧
    demoRs.map (fun r => r.stop_id) =
      (([st2, st1].filter (fun s => s.driver_id == dp1.driver_id)).insertionSort
        stopLe).map (fun s => s.stop_id) ∧
    (demoRs.map (fun r => r.sequence)).Sorted (· ≤ ·) :=
  C7_completeness_and_order eta_config demoDist (fun _ => 1) dp1 [st2, st1] demoRs
    (by with_unfolding_all decide)

/-- C8 (amended): the delay_minutes stored on an emitted record is the
difference between projected and planned arrival rounded to one decimal, so a
strictly positive stored value implies projected strictly after planned and a
strictly negative stored value implies projected strictly before planned; a
stored value of zero does not imply the stop is exactly on time, because the
rounding maps any difference smaller than 0.05 minutes to zero. -/
theorem C8_delay_sign_on_record (cfg : ETAConfig) (dist : ℚ × ℚ → ℚ × ℚ → ℚ)
    (traffic : ℕ → ℚ) (driver_position : DriverPosition) (stops : List Stop)
    (rs : List ETAResult) (r : ETAResult) (p : ℚ)
    (h : calculate_eta_for_driver cfg dist traffic driver_position stops = .ok rs)
    (hr : r ∈ rs) (hp : fromisoformat r.planned_eta = .ok p) :
    r.delay_minutes = pyRound 1 (r.calculated_eta - p) ∧
    (0 < r.delay_minutes → p < r.calculated_eta) ∧
    (r.delay_minutes < 0 → r.calculated_eta < p) := by
  cases ht : fromisoformat driver_position.timestamp with
  | error e =>
    simp only [calculate_eta_for_driver, ht] at h
    cases h
  | ok t0 =>
    simp only [calculate_eta_for_driver, ht] at h
    have hd := etaLoop_delay cfg dist
      ((cfg.DRIVER_SPEEDS.lookup driver_position.driver_id).getD 45) traffic
      driver_position.driver_id _ _ _ _ _ h r hr p hp
    refine ⟨hd, ?_, ?_⟩
    · intro hpos
      rw [hd] at hpos
      have hq := pyRound_pos hpos
      linarith
    · intro hneg
      rw [hd] at hneg
      have hq := pyRound_neg hneg
      linarith

/-- Witness for C8 (amended) on the first demo record, planned at minute
30. -/
theorem C8_witness :
    demoR0.delay_minutes = pyRound 1 (demoR0.calculated_eta - 30) ∧
    (0 < demoR0.delay_minutes → (30 : ℚ) < demoR0.calculated_eta) ∧
    (demoR0.delay_minutes < 0 → demoR0.calculated_eta < 30) :=
  C8_delay_sign_on_record eta_config demoDist (fun _ => 1) dp1 [st2, st1] demoRs demoR0 30
    (by with_unfolding_all decide) (by with_unfolding_all decide)
    (by with_unfolding_all decide)

/-- Counterexample to C8 as stated: a stop whose projected arrival (minute
10) is strictly after its planned arrival (minute 9.96) is emitted with
delay_minutes equal to zero, because the stored delay is rounded to one
decimal; so a zero stored delay does not mean exactly on time, and a strictly
late stop can carry a non-positive stored delay. -/
theorem C8_counterexample :
    (calculate_eta_for_driver eta_config demoDist (fun _ => 1) dpC8 [stC8]).toOption.map
        (List.map (fun r => (r.delay_minutes, r.calculated_eta)))
      = some [((0 : ℚ), (10 : ℚ))] ∧
    fromisoformat stC8.planned_eta = .ok (249/25) ∧ ((249/25 : ℚ) < 10) := by
  refine ⟨?_, ?_, ?_⟩ <;> with_unfolding_all decide

/-- C2 (amended): the projector performs no sequence-ordering validation.
Whenever the driver's observation timestamp and the planned times of the
driver's stops all parse, it succeeds and emits one record per stop of the
driver — even when sequence numbers are duplicated or non-monotonic — in the
order given by the stable sort on the sequence key alone (so it never fails
or skips on malformed ordering, and it never orders by any key other than
sequence). -/
theorem C2_no_ordering_rejection (cfg : ETAConfig) (dist : ℚ × ℚ → ℚ × ℚ → ℚ)
    (traffic : ℕ → ℚ) (driver_position : DriverPosition) (stops : List Stop)
    (ht : driver_position.timestamp.isValid = true)
    (hs : ∀ s ∈ stops, s.driver_id = driver_position.driver_id →
      s.planned_eta.isValid = true) :
    (calculate_eta_for_driver cfg dist traffic driver_position stops).map
        (fun rs => rs.map (fun r => r.stop_id))
      = .ok (((stops.filter (fun s => s.driver_id == driver_position.driver_id)).insertionSort
          stopLe).map (fun s => s.stop_id)) := by
  cases hts : driver_position.timestamp with
  | invalid => rw [hts] at ht; cases ht
  | valid t0 =>
    have ht0 : fromisoformat driver_position.timestamp = .ok t0 := by rw [hts]; rfl
    have hvalid : ∀ s ∈ (stops.filter
        (fun s => s.driver_id == driver_position.driver_id)).insertionSort stopLe,
        s.planned_eta.isValid = true := by
      intro s hsm
      have hmem := (List.perm_insertionSort stopLe
        (stops.filter (fun s => s.driver_id == driver_position.driver_id))).mem_iff.mp hsm
      obtain ⟨hstops, hdid⟩ := List.mem_filter.mp hmem
      exact hs s hstops (by simpa using hdid)
    have hok := etaLoop_ok_of_valid cfg dist
      ((cfg.DRIVER_SPEEDS.lookup driver_position.driver_id).getD 45) traffic
      driver_position.driver_id
      ((stops.filter (fun s => s.driver_id == driver_position.driver_id)).insertionSort stopLe)
      (driver_position.latitude, driver_position.longitude) t0 0 hvalid
    cases hE : etaLoop cfg dist
        ((cfg.DRIVER_SPEEDS.lookup driver_position.driver_id).getD 45) traffic
        driver_position.driver_id (driver_position.latitude, driver_position.longitude) t0 0
        ((stops.filter (fun s => s.driver_id == driver_position.driver_id)).insertionSort
          stopLe) with
    | error e =>
      rw [hE] at hok
      simp [Except.isOk, Except.toBool] at hok
    | ok rs =>
      have hmaps := (etaLoop_ok_maps cfg dist
        ((cfg.DRIVER_SPEEDS.lookup driver_position.driver_id).getD 45) traffic
        driver_position.driver_id _ _ _ _ _ hE).1
      simp only [calculate_eta_for_driver, ht0]
      rw [hE]
      simp only [Except.map]
      rw [hmaps]

/-- Witness for C2 (amended) on a driver whose two stops share the sequence
number 1. -/
theorem C2_witness :
    (calculate_eta_for_driver eta_config demoDist (fun _ => 1) dp1 [dupB, dupA]).map
        (fun rs => rs.map (fun r => r.stop_id))
      = .ok ((([dupB, dupA].filter (fun s => s.driver_id == dp1.driver_id)).insertionSort
          stopLe).map (fun s => s.stop_id)) :=
  C2_no_ordering_rejection eta_config demoDist (fun _ => 1) dp1 [dupB, dupA]
    (by with_unfolding_all decide) (by with_unfolding_all decide)

/-- Counterexample to C2 as stated: on a driver whose stops carry the
duplicate sequence numbers [1, 1], the projector neither fails nor skips the
driver — it silently returns a full two-stop route, in input order among the
tied keys. -/
theorem C2_counterexample :
    (calculate_eta_for_driver eta_config demoDist (fun _ => 1) dp1 [dupA, dupB]).toOption.map
        (List.map (fun r => r.stop_id))
      = some ["A", "B"] := by
  with_unfolding_all decide

/-- A failing projection for any position in the list makes the whole
calculate_all_etas loop fail. -/
lemma allEtasLoop_error_of_fail (cfg : ETAConfig) (dist : ℚ × ℚ → ℚ × ℚ → ℚ)
    (traffic : ℕ → ℕ → ℚ) (stops : List Stop) :
    ∀ (ps : List DriverPosition) (j i : ℕ) (p : DriverPosition) (e : String),
    ps[i]? = some p →
    calculate_eta_for_driver cfg dist (traffic (j + i)) p stops = .error e →
    (allEtasLoop cfg dist traffic stops j ps).isOk = false := by
  intro ps
  induction ps with
  | nil =>
    intro j i p e hp _
    simp at hp
  | cons q rest ih =>
    intro j i p e hp hfail
    cases i with
    | zero =>
      rw [List.getElem?_cons_zero] at hp
      cases hp
      rw [Nat.add_zero] at hfail
      simp only [allEtasLoop]
      rw [hfail]
      simp [Except.isOk, Except.toBool]
    | succ i' =>
      rw [List.getElem?_cons_succ] at hp
      have hfail' : calculate_eta_for_driver cfg dist (traffic (j + 1 + i')) p stops
          = .error e := by
        rwa [show j + 1 + i' = j + (i' + 1) from by omega]
      have hrec := ih (j + 1) i' p e hp hfail'
      simp only [allEtasLoop]
      cases hq : calculate_eta_for_driver cfg dist (traffic j) q stops with
      | error e' => simp [Except.isOk, Except.toBool]
      | ok rs =>
        cases hrec2 : allEtasLoop cfg dist traffic stops (j + 1) rest with
        | error e'' => simp [hrec2, Except.isOk, Except.toBool]
        | ok rs2 =>
          rw [hrec2] at hrec
          simp [Except.isOk, Except.toBool] at hrec

/-- C3 (amended): there is no per-driver failure isolation.  If the
projection for any one position in the input fails, calculate_all_etas
returns that failure and produces no projections for any driver: one driver's
failure aborts the whole run. -/
theorem C3_failure_aborts_run (cfg : ETAConfig) (dist : ℚ × ℚ → ℚ × ℚ → ℚ)
    (traffic : ℕ → ℕ → ℚ) (positions : List DriverPosition) (stops : List Stop)
    (i : ℕ) (p : DriverPosition) (e : String)
    (hp : positions[i]? = some p)
    (hfail : calculate_eta_for_driver cfg dist (traffic i) p stops = .error e) :
    (calculate_all_etas cfg dist traffic positions stops).isOk = false := by
  have hfail' : calculate_eta_for_driver cfg dist (traffic (0 + i)) p stops = .error e := by
    rwa [Nat.zero_add]
  have h := allEtasLoop_error_of_fail cfg dist traffic stops positions 0 i p e hp hfail'
  simpa [calculate_all_etas] using h

/-- Witness for C3 (amended): with the malformed-timestamp driver first and a
healthy driver second, the whole run fails. -/
theorem C3_witness :
    (calculate_all_etas eta_config demoDist (fun _ _ => 1) [posBad, dp1] [st1]).isOk
      = false :=
  C3_failure_aborts_run eta_config demoDist (fun _ _ => 1) [posBad, dp1] [st1] 0 posBad
    "Invalid isoformat string" (by with_unfolding_all decide) (by with_unfolding_all decide)

/-- Counterexample to C3 as stated: driver_002's position record has a
malformed timestamp so its own projection fails, while driver_001's
projection alone succeeds; yet the whole calculate_all_etas run fails,
producing no projections for driver_001 either. -/
theorem C3_counterexample :
    (calculate_eta_for_driver eta_config demoDist (fun _ => 1) posBad [st1]).isOk = false ∧
    (calculate_eta_for_driver eta_config demoDist (fun _ => 1) dp1 [st1]).isOk = true ∧
    (calculate_all_etas eta_config demoDist (fun _ _ => 1) [posBad, dp1] [st1]).toOption
      = none := by
  refine ⟨?_, ?_, ?_⟩ <;> with_unfolding_all decide

/-- Characterisation of the severity lambda: HIGH strictly above 30, MEDIUM
strictly above 20 and at most 30, LOW at most 20. -/
lemma severityOf_spec (d : ℚ) :
    (severityOf d = .HIGH ↔ 30 < d) ∧
    (severityOf d = .MEDIUM ↔ 20 < d ∧ d ≤ 30) ∧
    (severityOf d = .LOW ↔ d ≤ 20) := by
  unfold severityOf
  split_ifs with h1 h2
  · refine ⟨by simp [h1], ?_, ?_⟩
    · simp only [reduceCtorEq, false_iff]
      intro hc
      exact absurd h1 (not_lt.mpr hc.2)
    · simp only [reduceCtorEq, false_iff, not_le]
      linarith
  · push_neg at h1
    refine ⟨?_, ?_, ?_⟩
    · simp only [reduceCtorEq, false_iff, not_lt]
      exact h1
    · simp only [true_iff]
      exact ⟨h2, h1⟩
    · simp only [reduceCtorEq, false_iff, not_le]
      exact h2
  · push_neg at h1 h2
    refine ⟨?_, ?_, ?_⟩
    · simp only [reduceCtorEq, false_iff, not_lt]
      linarith
    · simp only [reduceCtorEq, false_iff]
      intro hc
      exact absurd hc.1 (not_lt.mpr h2)
    · simp only [true_iff]
      exact h2

/-- Every row returned by the classifier carries the severity computed by the
severity lambda from its own recorded delay. -/
lemma generate_alerts_mem_severity (now : ℚ) (eta_rows : List Row) (a : Row)
    (ha : a ∈ generate_alerts now eta_rows) :
    a.alert_severity = some (severityOf a.proj.delay_minutes) := by
  simp only [generate_alerts] at ha
  split_ifs at ha with h0
  · cases ha
  · have hm := (List.perm_insertionSort alertGe _).mem_iff.mp ha
    obtain ⟨b, _, rfl⟩ := List.mem_map.mp hm
    rfl

/-- C4: every record the classifier emits is assigned severity HIGH iff its
recorded delay_minutes exceeds 30, MEDIUM iff it exceeds 20 and is at most
30, and LOW otherwise; the thresholds are strict, so a delay of exactly 30 is
MEDIUM and exactly 20 is LOW. -/
theorem C4_severity_bucketing (now : ℚ) (eta_rows : List Row) (a : Row)
    (ha : a ∈ generate_alerts now eta_rows) :
    (a.alert_severity = some .HIGH ↔ 30 < a.proj.delay_minutes) ∧
    (a.alert_severity = some .MEDIUM ↔
      20 < a.proj.delay_minutes ∧ a.proj.delay_minutes ≤ 30) ∧
    (a.alert_severity = some .LOW ↔ a.proj.delay_minutes ≤ 20) := by
  have hsv := generate_alerts_mem_severity now eta_rows a ha
  obtain ⟨h1, h2, h3⟩ := severityOf_spec a.proj.delay_minutes
  rw [hsv]
  simp only [Option.some.injEq]
  exact ⟨h1, h2, h3⟩

/-- Witness for C4 on the worst row of the demo classifier run (delay
40.1). -/
theorem C4_witness :
    (demoAlertRow.alert_severity = some .HIGH ↔ 30 < demoAlertRow.proj.delay_minutes) ∧
    (demoAlertRow.alert_severity = some .MEDIUM ↔
      20 < demoAlertRow.proj.delay_minutes ∧ demoAlertRow.proj.delay_minutes ≤ 30) ∧
    (demoAlertRow.alert_severity = some .LOW ↔ demoAlertRow.proj.delay_minutes ≤ 20) :=
  C4_severity_bucketing 0 demoRows demoAlertRow (by with_unfolding_all decide)

/-- C5: the classifier returns exactly the rows whose delayed flag is true
(as a permutation of the filtered input), sorted by recorded delay in
descending order, and an input with no delayed row yields the empty
collection rather than an error. -/
theorem C5_alert_filter_and_ordering (now : ℚ) (eta_rows : List Row) :
    ((generate_alerts now eta_rows).map Row.proj).Perm
        ((eta_rows.filter (fun r => r.proj.is_delayed)).map Row.proj) ∧
    ((generate_alerts now eta_rows).map
        (fun r => r.proj.delay_minutes)).Sorted (· ≥ ·) ∧
    (eta_rows.filter (fun r => r.proj.is_delayed) = [] →
      generate_alerts now eta_rows = []) := by
  simp only [generate_alerts]
  split_ifs with h0
  · have hnil : eta_rows.filter (fun r => r.proj.is_delayed) = [] :=
      List.length_eq_zero.mp h0
    refine ⟨?_, ?_, fun _ => rfl⟩
    · rw [hnil]
    · simp
  · refine ⟨?_, ?_, ?_⟩
    · refine ((List.perm_insertionSort alertGe _).map Row.proj).trans ?_
      rw [List.map_map, List.map_map]
      exact List.Perm.refl _
    · have hs := List.sorted_insertionSort alertGe
        ((eta_rows.filter (fun r => r.proj.is_delayed)).map
            (fun r => { r with alert_timestamp := some now }) |>.map
          (fun r => { r with alert_severity := some (severityOf r.proj.delay_minutes) }))
      exact List.pairwise_map.mpr hs
    · intro hnil
      exact absurd (by rw [hnil]; rfl) h0

/-- Witness for C5: an input whose only row is not delayed yields the empty
collection. -/
theorem C5_witness : generate_alerts 0 [mkRow 1 false] = [] :=
  (C5_alert_filter_and_ordering 0 [mkRow 1 false]).2.2 (by with_unfolding_all decide)

lemma getElem?_append_lt {α : Type} (l₁ l₂ : List α) (n : ℕ) (h : n < l₁.length) :
    (l₁ ++ l₂)[n]? = l₁[n]? := by
  rw [List.getElem?_append, if_pos h]

/-- C10: the classifier never mutates its input frame.  In the explicit-store
semantics, the frame at the input's address after generate_alerts_st is
exactly the frame that was there before: same rows, same order, no alert
columns added — the returned alert view lives at a freshly allocated
address. -/
theorem C10_classifier_leaves_input_unchanged (now : ℚ) (store : List (List Row))
    (eta_ref : ℕ) (h : eta_ref < store.length) :
    ((generate_alerts_st now store eta_ref).1)[eta_ref]? = store[eta_ref]? := by
  simp only [generate_alerts_st]
  split_ifs with h0
  · rw [getElem?_append_lt _ _ _ (by simp [List.length_append]; omega),
      getElem?_append_lt _ _ _ h]
  · rw [getElem?_append_lt _ _ _ (by simp [List.length_set, List.length_append]; omega),
      List.getElem?_set_ne (by omega), List.getElem?_set_ne (by omega),
      getElem?_append_lt _ _ _ h]

/-- Witness for C10 on a one-frame store holding the demo classifier
input. -/
theorem C10_witness :
    ((generate_alerts_st 0 [demoRows] 0).1)[0]? = [demoRows][0]? :=
  C10_classifier_leaves_input_unchanged 0 [demoRows] 0 (by simp)
